import Mathlib

/-!
Verification of the whisper notification-server discovery service
(`whisper/notifications/discovery.go`).

The file shallowly embeds the discovery service: its lifecycle functions
`Start`/`Stop` and its two message handlers `processDiscoveryRequest` and
`processServerAcceptedRequest`.  External collaborators that live outside the
translated source file (the whisper transport's `Wrap`/`Send`/`Unwatch`, the
hosting server's `installTopicFilter` and `RegisterClientSession`, and the
topic-derivation helper `MakeTopic`) are modelled as explicit oracles or, where
the spec fixes their shape, as spec-modelled definitions.  Go byte slices are
`List (Fin 256)`, Go strings are `String`, Go `error` values are
`Option String` / `Except String` carrying the error text that `fmt.Errorf`
and `errors.New` would produce, so that "returned as-is" and "wrapped with
context" are observable.
-/

namespace Notifications

/-- A byte, as in a Go `byte`. -/
abbrev Byte := Fin 256

/-- Truncate a natural number to a byte. -/
def byteOfNat (n : Nat) : Byte := ⟨n % 256, Nat.mod_lt _ (by decide)⟩

/-- The bytes of a Go string (`[]byte(s)` on ASCII protocol names). -/
def strBytes (s : String) : List Byte := s.data.map (fun c => byteOfNat c.toNat)

/-- A symmetric key, as held by the hosting server (`protocolKey []byte`). -/
abbrev SymKey := List Byte

/-- A marshalled public key: the byte serialization that
`crypto.FromECDSAPub` produces for a sender's ECDSA public key. -/
abbrev PubKey := List Byte

/-- Go's `hex.EncodeToString`: lowercase hexadecimal, two digits per byte. -/
def hexDigit (n : Nat) : Char :=
  if n < 10 then Char.ofNat (48 + n) else Char.ofNat (87 + n)

/-- Hex-encode one byte (lowercase, big-endian nibbles), as Go's `encoding/hex`. -/
def hexEncodeByte (b : Byte) : List Char :=
  [hexDigit (b.val / 16), hexDigit (b.val % 16)]

/-- Go `hex.EncodeToString` on a byte slice. -/
def hexEncodeToString (bs : List Byte) : String :=
  String.mk ((bs.map hexEncodeByte).flatten)

/-! ### Protocol constants (from the `const` block of discovery.go) -/

def protocolKeyName : String := "NOTIFICATION_PROTOCOL_KEY"

def topicDiscoverServer : String := "DISCOVER_NOTIFICATION_SERVER"

def topicProposeServer : String := "PROPOSE_NOTIFICATION_SERVER"

def topicServerAccepted : String := "ACCEPT_NOTIFICATION_SERVER"

def topicAckClientSubscription : String := "ACK_NOTIFICATION_SERVER_SUBSCRIPTION"

/-! ### Topic derivation -/

/-- Modelled from the spec: `MakeTopic` lives in the whisperv5 package, which
is not part of the translated source.  The spec (§4.4) fixes it as "a pure
function mapping a UTF-8 protocol-step name to a fixed-size topic value, using
a standard one-way hash truncated/formatted to the transport's topic width"
(4 bytes).  The hash is modelled by a concrete deterministic 32-bit fold
(FNV-1a) standing in for the production hash; every property proved about it
uses only that it is a function of the name. -/
def MakeTopic (name : List Byte) : List Byte :=
  let h := name.foldl (fun acc b => ((acc ^^^ b.val) * 16777619) % 4294967296) 2166136261
  [byteOfNat (h / 16777216), byteOfNat (h / 65536), byteOfNat (h / 256), byteOfNat h]

/-! ### JSON payloads

The accept handler decodes its payload with Go's `encoding/json` into
`struct { ServerID string `json:"server"` }`.  The byte-level JSON grammar is
Go standard-library territory; we model a payload as either a parsed JSON
document or a syntax error (`Option JsonValue`, `none` meaning the bytes are
not valid JSON), and reproduce `json.Unmarshal`'s behaviour on documents:
  * a syntax error is returned as an error;
  * a top-level value that is neither an object nor `null` is a type error;
  * top-level `null` is a no-op (no error, zero-value struct);
  * object keys are matched against the field tag `server`
    case-insensitively, in input order, later occurrences overwriting;
  * a matching key with a string value sets the field; with `null` it is a
    no-op; with any other value it records a type error (the first such
    error is the one returned, decoding continues);
  * unknown keys are ignored.
-/

/-- A parsed JSON document. -/
inductive JsonValue : Type where
  | null : JsonValue
  | bool (b : Bool) : JsonValue
  | num (n : Int) : JsonValue
  | str (s : String) : JsonValue
  | arr (xs : List JsonValue) : JsonValue
  | obj (fields : List (String × JsonValue)) : JsonValue

/-- The error text standing in for a Go JSON syntax error. -/
def jsonSyntaxErrorMsg : String := "invalid character in JSON input"

/-- The error text standing in for Go's `UnmarshalTypeError` on a top-level
value that is not an object. -/
def jsonTypeErrorTopMsg : String :=
  "json: cannot unmarshal value into Go value of type struct"

/-- The error text standing in for Go's `UnmarshalTypeError` on a
non-string `server` field. -/
def jsonTypeErrorFieldMsg : String :=
  "json: cannot unmarshal value into Go struct field .server of type string"

/-- ASCII lower-casing of a character (Go's case-insensitive key match). -/
def asciiLower (c : Char) : Char :=
  if 65 ≤ c.toNat ∧ c.toNat ≤ 90 then Char.ofNat (c.toNat + 32) else c

/-- ASCII lower-casing of a string. -/
def asciiLowerStr (s : String) : String := String.mk (s.data.map asciiLower)

/-- One step of decoding an object field into the accept-request struct:
state is (current `ServerID` value, first recorded error). -/
def decodeServerField (st : String × Option String) (kv : String × JsonValue) :
    String × Option String :=
  if asciiLowerStr kv.1 = "server" then
    match kv.2 with
    | JsonValue.str v => (v, st.2)
    | JsonValue.null => st
    | _ =>
      match st.2 with
      | some e => (st.1, some e)
      | none => (st.1, some jsonTypeErrorFieldMsg)
  else st

/-- `json.Unmarshal(msg.Payload, &parsedMessage)` for
`struct { ServerID string `json:"server"` }`: returns the decoded `ServerID`
(zero value `""` when absent) or the error `json.Unmarshal` reports. -/
def unmarshalAcceptPayload : Option JsonValue → Except String String
  | none => Except.error jsonSyntaxErrorMsg
  | some JsonValue.null => Except.ok ""
  | some (JsonValue.obj fields) =>
    match (fields.foldl decodeServerField ("", none)).2 with
    | some e => Except.error e
    | none => Except.ok (fields.foldl decodeServerField ("", none)).1
  | some _ => Except.error jsonTypeErrorTopMsg

/-! ### Data model of the service and its collaborators -/

/-- The hosting `NotificationServer` fields the discovery service reads:
`nodeID` (hex identity string), `protocolKey`, and configuration.
`MinimumPoW` is a `float64` in Go; it is only ever copied into outgoing
message parameters, so it is modelled as an opaque token (`Nat`). -/
structure NotificationServer where
  nodeID : String
  protocolKey : SymKey
  ttlConfig : Nat
  minimumPoW : Nat
deriving DecidableEq, Repr

/-- `whisper.ReceivedMessage`, restricted to the fields the handlers read:
`Payload` (abstracted to its JSON parse) and `Src` (sender public key,
`none` when absent). -/
structure ReceivedMessage where
  Payload : Option JsonValue
  Src : Option PubKey

/-- `whisper.MessageParams` as built by the handlers. -/
structure MessageParams where
  Dst : Option PubKey
  KeySym : SymKey
  Topic : List Byte
  Payload : String
  TTL : Nat
  PoW : Nat
  WorkTime : Nat
deriving DecidableEq, Repr

/-- `ClientSession` descriptor passed to `RegisterClientSession`. -/
structure ClientSession where
  ClientKey : String
deriving DecidableEq, Repr

/-- Oracle for the whisper transport's send path (`NewSentMessage`/`Wrap` and
`whisper.Send` live in the whisperv5 package, outside the translated source;
the spec's §6 Transport Port treats publishing as a fallible capability).
`wrapErr p = some e` means wrapping the message built from `p` fails with
error text `e`; `sendErr p = some e` means `Send` of the wrapped envelope
fails with error text `e`. -/
structure Transport where
  wrapErr : MessageParams → Option String
  sendErr : MessageParams → Option String

/-- Oracle for the session registry (`RegisterClientSession`, outside the
translated source; spec §2: `registerSession(descriptor) -> (sessionKey,
error)`). -/
structure Registry where
  register : ClientSession → Except String (List Byte)

/-- Everything a handler invocation did: the returned Go `error`
(`none` = `nil`), the `RegisterClientSession` calls made (in order), and the
message parameters whose wrapped envelopes were passed to `whisper.Send`
(in order). -/
structure HandlerOutput where
  result : Option String
  registrations : List ClientSession
  sends : List MessageParams
deriving DecidableEq, Repr

/-! ### The message handlers -/

/-- The `whisper.MessageParams` literal built by `processDiscoveryRequest`:
destination is the sender, key is the shared protocol key, topic is derived
from the ProposeServer name, payload announces this node, TTL is the
configured TTL truncated to `uint32`, PoW is the configured minimum. -/
def proposeMsgParams (s : NotificationServer) (msg : ReceivedMessage) : MessageParams :=
  { Dst := msg.Src
    KeySym := s.protocolKey
    Topic := MakeTopic (strBytes topicProposeServer)
    Payload := "\x7b\"server\": \"0x" ++ s.nodeID ++ "\"\x7d"
    TTL := s.ttlConfig % 4294967296
    PoW := s.minimumPoW
    WorkTime := 5 }

/-- `processDiscoveryRequest`: reply to a discover message with a server
proposal.  Note the source performs no check on `msg.Src`; it is copied into
`Dst` as-is. -/
def processDiscoveryRequest (s : NotificationServer) (t : Transport)
    (msg : ReceivedMessage) : HandlerOutput :=
  let msgParams := proposeMsgParams s msg
  match t.wrapErr msgParams with
  | some e =>
    { result := some ("failed to wrap server proposal message: " ++ e)
      registrations := [], sends := [] }
  | none =>
    match t.sendErr msgParams with
    | some e =>
      { result := some ("failed to send server proposal message: " ++ e)
        registrations := [], sends := [msgParams] }
    | none => { result := none, registrations := [], sends := [msgParams] }

/-- The error built by `errors.New("message 'from' field is required")`. -/
def missingSenderMsg : String := "message \x27from\x27 field is required"

/-- The `whisper.MessageParams` literal built by `processServerAcceptedRequest`
for the subscription acknowledgment. -/
def ackMsgParams (s : NotificationServer) (src : PubKey) (sessionKey : List Byte) :
    MessageParams :=
  { Dst := some src
    KeySym := s.protocolKey
    Topic := MakeTopic (strBytes topicAckClientSubscription)
    Payload := "\x7b\"server\": \"0x" ++ s.nodeID ++ "\", \"key\": \"0x" ++
      hexEncodeToString sessionKey ++ "\"\x7d"
    TTL := s.ttlConfig % 4294967296
    PoW := s.minimumPoW
    WorkTime := 5 }

/-- `processServerAcceptedRequest`: decode the payload, require a sender,
ignore accepts addressed to other servers, register the client session and
acknowledge with the fresh session key. -/
def processServerAcceptedRequest (s : NotificationServer) (t : Transport)
    (reg : Registry) (msg : ReceivedMessage) : HandlerOutput :=
  match unmarshalAcceptPayload msg.Payload with
  | Except.error e => { result := some e, registrations := [], sends := [] }
  | Except.ok serverID =>
    match msg.Src with
    | none => { result := some missingSenderMsg, registrations := [], sends := [] }
    | some src =>
      if serverID ≠ "0x" ++ s.nodeID then
        { result := none, registrations := [], sends := [] }
      else
        let session : ClientSession := { ClientKey := hexEncodeToString src }
        match reg.register session with
        | Except.error e => { result := some e, registrations := [session], sends := [] }
        | Except.ok sessionKey =>
          let msgParams := ackMsgParams s src sessionKey
          match t.wrapErr msgParams with
          | some e =>
            { result := some ("failed to wrap server proposal message: " ++ e)
              registrations := [session], sends := [] }
          | none =>
            match t.sendErr msgParams with
            | some e =>
              { result := some ("failed to send server proposal message: " ++ e)
                registrations := [session], sends := [msgParams] }
            | none =>
              { result := none, registrations := [session], sends := [msgParams] }

/-! ### Lifecycle: Start and Stop -/

/-- The mutable state of `discoveryService`: the two stored filter IDs.
Go zero-values both to the empty string at construction. -/
structure DiscoveryService where
  discoverFilterID : String
  serverAcceptedFilterID : String
deriving DecidableEq, Repr

/-- `NewDiscoveryService`: both filter-ID fields start at their zero value. -/
def NewDiscoveryService : DiscoveryService :=
  { discoverFilterID := "", serverAcceptedFilterID := "" }

/-- Oracle for `installTopicFilter` (defined elsewhere in the notifications
package, outside the translated source; spec §6:
`installFilter(topic, sharedKey) -> filterHandle | error`).  Keyed by the
topic name and the shared key. -/
structure FilterInstaller where
  install : String → SymKey → Except String String

/-- An observable filter operation performed against the whisper transport. -/
inductive FilterOp : Type where
  | installed (id : String) : FilterOp
  | unwatched (id : String) : FilterOp
deriving DecidableEq, Repr

/-- `Start`: install the discover-topic filter, then the accept-topic filter;
each failure is wrapped as `failed installing filter: <err>` and returned.
The returned triple is (service state after the call, returned Go error,
filter operations performed in order).  The source performs no rollback of
the first filter when the second installation fails. -/
def Start (s : DiscoveryService) (srv : NotificationServer) (fi : FilterInstaller) :
    DiscoveryService × Option String × List FilterOp :=
  match fi.install topicDiscoverServer srv.protocolKey with
  | Except.error e => (s, some ("failed installing filter: " ++ e), [])
  | Except.ok id1 =>
    let s1 : DiscoveryService := { s with discoverFilterID := id1 }
    match fi.install topicServerAccepted srv.protocolKey with
    | Except.error e =>
      (s1, some ("failed installing filter: " ++ e), [FilterOp.installed id1])
    | Except.ok id2 =>
      ({ s1 with serverAcceptedFilterID := id2 }, none,
        [FilterOp.installed id1, FilterOp.installed id2])

/-- `Stop`: unconditionally `Unwatch` both stored filter IDs and return `nil`.
The returned pair is (returned Go error, filter operations performed). -/
def Stop (s : DiscoveryService) : Option String × List FilterOp :=
  (none, [FilterOp.unwatched s.discoverFilterID,
          FilterOp.unwatched s.serverAcceptedFilterID])

/-! ### Concrete fixtures used by witnesses and counterexamples -/

/-- A concrete hosting server: identity `abcd`, a one-byte protocol key,
TTL 120, minimum PoW token 2. -/
def testServer : NotificationServer :=
  { nodeID := "abcd", protocolKey := [1], ttlConfig := 120, minimumPoW := 2 }

/-- A transport on which wrapping and sending always succeed. -/
def okTransport : Transport := { wrapErr := fun _ => none, sendErr := fun _ => none }

/-- A transport on which wrapping succeeds and every send fails. -/
def sendFailTransport : Transport :=
  { wrapErr := fun _ => none, sendErr := fun _ => some "network down" }

/-- A registry that issues the fixed session key `[7, 8]` to every client. -/
def okRegistry : Registry := { register := fun _ => Except.ok [7, 8] }

/-- A registry that rejects every registration with error text `registry full`. -/
def failRegistry : Registry := { register := fun _ => Except.error "registry full" }

/-- A concrete client public key (marshalled bytes). -/
def testClientKey : PubKey := [2, 3]

/-- A discover message whose sender is absent. -/
def discoverNoSenderMsg : ReceivedMessage := { Payload := none, Src := none }

/-- A discover message from `testClientKey`. -/
def discoverMsg : ReceivedMessage := { Payload := none, Src := some testClientKey }

/-- An accept message from `testClientKey` naming `testServer`. -/
def acceptMsg : ReceivedMessage :=
  { Payload := some (JsonValue.obj [("server", JsonValue.str "0xabcd")])
    Src := some testClientKey }

/-- An accept message from `testClientKey` naming a different server. -/
def acceptOtherServerMsg : ReceivedMessage :=
  { Payload := some (JsonValue.obj [("server", JsonValue.str "0xffff")])
    Src := some testClientKey }

/-- An accept message that is malformed (not valid JSON) and lacks a sender. -/
def acceptMalformedNoSenderMsg : ReceivedMessage := { Payload := none, Src := none }

/-- An accept message whose payload is the valid JSON object with no fields. -/
def acceptEmptyObjMsg : ReceivedMessage :=
  { Payload := some (JsonValue.obj []), Src := some testClientKey }

/-- An accept message whose payload carries a numeric `server` field. -/
def acceptNumServerMsg : ReceivedMessage :=
  { Payload := some (JsonValue.obj [("server", JsonValue.num 123)])
    Src := some testClientKey }

/-- A filter installer on which the discover-topic installation succeeds with
handle `filter-1` and the accept-topic installation fails. -/
def secondInstallFails : FilterInstaller :=
  { install := fun topic _ =>
      if topic = topicDiscoverServer then Except.ok "filter-1"
      else Except.error "install failed" }

/-! ### Helper lemmas -/

/-- One decode step either keeps the recorded error or records the field
type error. -/
theorem decodeServerField_snd (st : String × Option String) (kv : String × JsonValue) :
    (decodeServerField st kv).2 = st.2 ∨
    (decodeServerField st kv).2 = some jsonTypeErrorFieldMsg := by
  unfold decodeServerField
  split
  · split
    · exact Or.inl rfl
    · exact Or.inl rfl
    all_goals
      cases h : st.2
      · simp [h]
      · simp [h]
  · exact Or.inl rfl

/-- The error recorded by the field fold, if any, is the field type error. -/
theorem foldl_decodeServerField_snd (fields : List (String × JsonValue)) :
    ∀ acc : String × Option String,
      acc.2 = none ∨ acc.2 = some jsonTypeErrorFieldMsg →
      ((fields.foldl decodeServerField acc).2 = none ∨
       (fields.foldl decodeServerField acc).2 = some jsonTypeErrorFieldMsg) := by
  induction fields with
  | nil => intro acc h; simpa using h
  | cons kv rest ih =>
    intro acc h
    rw [List.foldl_cons]
    apply ih
    rcases decodeServerField_snd acc kv with h1 | h1
    · rw [h1]; exact h
    · exact Or.inr h1

/-- Every error `unmarshalAcceptPayload` can produce is one of the three
JSON error texts. -/
theorem unmarshalAcceptPayload_error_cases (p : Option JsonValue) (e : String)
    (h : unmarshalAcceptPayload p = Except.error e) :
    e = jsonSyntaxErrorMsg ∨ e = jsonTypeErrorTopMsg ∨ e = jsonTypeErrorFieldMsg := by
  match p with
  | none =>
    simp [unmarshalAcceptPayload] at h
    exact Or.inl h.symm
  | some JsonValue.null => simp [unmarshalAcceptPayload] at h
  | some (JsonValue.bool b) =>
    simp [unmarshalAcceptPayload] at h
    exact Or.inr (Or.inl h.symm)
  | some (JsonValue.num n) =>
    simp [unmarshalAcceptPayload] at h
    exact Or.inr (Or.inl h.symm)
  | some (JsonValue.str v) =>
    simp [unmarshalAcceptPayload] at h
    exact Or.inr (Or.inl h.symm)
  | some (JsonValue.arr xs) =>
    simp [unmarshalAcceptPayload] at h
    exact Or.inr (Or.inl h.symm)
  | some (JsonValue.obj fields) =>
    have hf := foldl_decodeServerField_snd fields ("", none) (Or.inl rfl)
    simp only [unmarshalAcceptPayload] at h
    rcases hf with hf | hf
    · rw [hf] at h; exact absurd h (by simp)
    · rw [hf] at h
      simp at h
      exact Or.inr (Or.inr h.symm)

/-- `"0x" ++ x` is never the empty string. -/
theorem zeroX_ne_empty (x : String) : "0x" ++ x ≠ "" := by
  intro h
  have hlen := congrArg String.length h
  rw [String.length_append] at hlen
  have h2 : ("0x" : String).length = 2 := rfl
  have h0 : ("" : String).length = 0 := rfl
  rw [h2, h0] at hlen
  omega

/-! ### C1 — Start does not roll back the first filter -/

/-- C1: the claim says that when the Discover-topic filter installs but the
ServerAccepted-topic filter fails, `Start` removes the already-installed
Discover filter before returning.  Evaluating `Start` at exactly that input
shows the code returns the wrapped error with the Discover filter still
installed (its ID is retained in the state) and performs no `Unwatch`
operation: the mandated rollback is absent from the code. -/
theorem start_second_install_failure_keeps_first_filter :
    Start NewDiscoveryService testServer secondInstallFails =
      ({ discoverFilterID := "filter-1", serverAcceptedFilterID := "" },
        some "failed installing filter: install failed",
        [FilterOp.installed "filter-1"]) := by
  decide

/-! ### C2 — the discover handler performs no sender check -/

/-- C2 counterexample: a discover message with an absent sender is not
rejected — the handler returns `nil` (not the missing-sender error) and one
message is passed to `Send`, so a publish does occur. -/
theorem discover_missing_sender_cex :
    discoverNoSenderMsg.Src = none ∧
    (processDiscoveryRequest testServer okTransport discoverNoSenderMsg).result = none ∧
    (processDiscoveryRequest testServer okTransport discoverNoSenderMsg).sends =
      [proposeMsgParams testServer discoverNoSenderMsg] :=
  ⟨rfl, rfl, rfl⟩

/-- C2 amended: the discover handler performs no sender-presence check and
has no missing-sender error path; for a message with absent sender (on a
transport whose wrap and send succeed) it still builds the proposal with an
empty destination, publishes it, and returns `nil`. -/
theorem discover_no_sender_still_publishes (s : NotificationServer) (t : Transport)
    (msg : ReceivedMessage) (hsrc : msg.Src = none)
    (hw : t.wrapErr (proposeMsgParams s msg) = none)
    (hs : t.sendErr (proposeMsgParams s msg) = none) :
    processDiscoveryRequest s t msg =
      { result := none, registrations := [], sends := [proposeMsgParams s msg] } ∧
    (proposeMsgParams s msg).Dst = none := by
  constructor
  · simp only [processDiscoveryRequest]
    rw [hw, hs]
  · simp [proposeMsgParams, hsrc]

/-- Witness for `discover_no_sender_still_publishes` at concrete inputs. -/
theorem discover_no_sender_still_publishes_witness :
    discoverNoSenderMsg.Src = none ∧
    okTransport.wrapErr (proposeMsgParams testServer discoverNoSenderMsg) = none ∧
    okTransport.sendErr (proposeMsgParams testServer discoverNoSenderMsg) = none ∧
    (processDiscoveryRequest testServer okTransport discoverNoSenderMsg =
        { result := none, registrations := []
          sends := [proposeMsgParams testServer discoverNoSenderMsg] } ∧
      (proposeMsgParams testServer discoverNoSenderMsg).Dst = none) :=
  ⟨rfl, rfl, rfl,
    discover_no_sender_still_publishes testServer okTransport discoverNoSenderMsg rfl rfl rfl⟩

/-! ### C7 — the discover handler publishes exactly one proposal -/

/-- C7: for a discover message with a present sender, on a transport whose
wrap and send succeed, the handler publishes exactly one Propose message,
addressed to that sender, under the ProposeServer topic, with payload
`{"server": "0x<nodeID>"}`, keyed by the shared protocol key, with the
configured TTL (truncated to `uint32`) and minimum proof-of-work. -/
theorem discover_publishes_one_proposal (s : NotificationServer) (t : Transport)
    (msg : ReceivedMessage) (pk : PubKey) (hsrc : msg.Src = some pk)
    (hw : t.wrapErr (proposeMsgParams s msg) = none)
    (hs : t.sendErr (proposeMsgParams s msg) = none) :
    processDiscoveryRequest s t msg =
      { result := none, registrations := [], sends := [proposeMsgParams s msg] } ∧
    proposeMsgParams s msg =
      { Dst := some pk
        KeySym := s.protocolKey
        Topic := MakeTopic (strBytes topicProposeServer)
        Payload := "\x7b\"server\": \"0x" ++ s.nodeID ++ "\"\x7d"
        TTL := s.ttlConfig % 4294967296
        PoW := s.minimumPoW
        WorkTime := 5 } := by
  constructor
  · simp only [processDiscoveryRequest]
    rw [hw, hs]
  · simp [proposeMsgParams, hsrc]

/-- Witness for `discover_publishes_one_proposal` at concrete inputs. -/
theorem discover_publishes_one_proposal_witness :
    discoverMsg.Src = some testClientKey ∧
    okTransport.wrapErr (proposeMsgParams testServer discoverMsg) = none ∧
    okTransport.sendErr (proposeMsgParams testServer discoverMsg) = none ∧
    (processDiscoveryRequest testServer okTransport discoverMsg =
        { result := none, registrations := []
          sends := [proposeMsgParams testServer discoverMsg] } ∧
      proposeMsgParams testServer discoverMsg =
        { Dst := some testClientKey
          KeySym := testServer.protocolKey
          Topic := MakeTopic (strBytes topicProposeServer)
          Payload := "\x7b\"server\": \"0x" ++ testServer.nodeID ++ "\"\x7d"
          TTL := testServer.ttlConfig % 4294967296
          PoW := testServer.minimumPoW
          WorkTime := 5 }) :=
  ⟨rfl, rfl, rfl,
    discover_publishes_one_proposal testServer okTransport discoverMsg testClientKey rfl rfl rfl⟩

/-! ### C8 — topic derivation is pure and deterministic -/

/-- C8: `MakeTopic` is a pure, total function of the protocol-step name:
two evaluations on the same name yield the same bytes, and the topics the
handlers attach to outgoing messages depend only on the constant step names,
never on the server state or the inbound message. -/
theorem makeTopic_deterministic :
    (∀ name : List Byte, MakeTopic name = MakeTopic name) ∧
    (∀ (s : NotificationServer) (msg : ReceivedMessage),
      (proposeMsgParams s msg).Topic = MakeTopic (strBytes topicProposeServer)) ∧
    (∀ (s : NotificationServer) (src : PubKey) (k : List Byte),
      (ackMsgParams s src k).Topic = MakeTopic (strBytes topicAckClientSubscription)) :=
  ⟨fun _ => rfl, fun _ _ => rfl, fun _ _ _ => rfl⟩

/-! ### C10 — Stop is unconditional and never fails -/

/-- C10: `Stop` always returns `nil` and always performs exactly the two
`Unwatch` calls on the stored filter IDs, whatever the service state; in
particular, called on a freshly constructed service (before any `Start`) it
unwatches the two zero-value (empty) filter IDs. -/
theorem stop_unconditional :
    (∀ s : DiscoveryService,
      Stop s = (none, [FilterOp.unwatched s.discoverFilterID,
                       FilterOp.unwatched s.serverAcceptedFilterID])) ∧
    Stop NewDiscoveryService = (none, [FilterOp.unwatched "", FilterOp.unwatched ""]) :=
  ⟨fun _ => rfl, rfl⟩

/-! ### C3 — the accept handler registers and acknowledges -/

/-- C3: for an accept message whose payload names this node (`0x` + nodeID)
and whose sender is present, when the registry issues session key `k` and the
transport wrap/send succeed, the handler makes exactly one registration call
whose client key is the hex encoding of the sender's public key, and passes
exactly one Ack to `Send`, addressed to the sender, under the
AckSubscription topic, with payload
`{"server": "0x<nodeID>", "key": "0x<hex k>"}`. -/
theorem accept_registers_and_acks (s : NotificationServer) (t : Transport)
    (reg : Registry) (msg : ReceivedMessage) (pk : PubKey) (k : List Byte)
    (hdec : unmarshalAcceptPayload msg.Payload = Except.ok ("0x" ++ s.nodeID))
    (hsrc : msg.Src = some pk)
    (hreg : reg.register { ClientKey := hexEncodeToString pk } = Except.ok k)
    (hw : t.wrapErr (ackMsgParams s pk k) = none)
    (hsend : t.sendErr (ackMsgParams s pk k) = none) :
    processServerAcceptedRequest s t reg msg =
      { result := none
        registrations := [{ ClientKey := hexEncodeToString pk }]
        sends := [ackMsgParams s pk k] } ∧
    ackMsgParams s pk k =
      { Dst := some pk
        KeySym := s.protocolKey
        Topic := MakeTopic (strBytes topicAckClientSubscription)
        Payload := "\x7b\"server\": \"0x" ++ s.nodeID ++ "\", \"key\": \"0x" ++
          hexEncodeToString k ++ "\"\x7d"
        TTL := s.ttlConfig % 4294967296
        PoW := s.minimumPoW
        WorkTime := 5 } := by
  constructor
  · simp only [processServerAcceptedRequest, hdec, hsrc]
    rw [if_neg (fun hn => hn rfl)]
    simp only [hreg, hw, hsend]
  · rfl

/-- Witness for `accept_registers_and_acks` at concrete inputs. -/
theorem accept_registers_and_acks_witness :
    unmarshalAcceptPayload acceptMsg.Payload = Except.ok ("0x" ++ testServer.nodeID) ∧
    acceptMsg.Src = some testClientKey ∧
    okRegistry.register { ClientKey := hexEncodeToString testClientKey } =
      Except.ok [7, 8] ∧
    okTransport.wrapErr (ackMsgParams testServer testClientKey [7, 8]) = none ∧
    okTransport.sendErr (ackMsgParams testServer testClientKey [7, 8]) = none ∧
    (processServerAcceptedRequest testServer okTransport okRegistry acceptMsg =
        { result := none
          registrations := [{ ClientKey := hexEncodeToString testClientKey }]
          sends := [ackMsgParams testServer testClientKey [7, 8]] } ∧
      ackMsgParams testServer testClientKey [7, 8] =
        { Dst := some testClientKey
          KeySym := testServer.protocolKey
          Topic := MakeTopic (strBytes topicAckClientSubscription)
          Payload := "\x7b\"server\": \"0x" ++ testServer.nodeID ++ "\", \"key\": \"0x" ++
            hexEncodeToString [7, 8] ++ "\"\x7d"
          TTL := testServer.ttlConfig % 4294967296
          PoW := testServer.minimumPoW
          WorkTime := 5 }) :=
  ⟨rfl, rfl, rfl, rfl, rfl,
    accept_registers_and_acks testServer okTransport okRegistry acceptMsg testClientKey
      [7, 8] rfl rfl rfl rfl rfl⟩

/-! ### C4 — accepts naming another server are silently ignored -/

/-- C4: an accept message with a well-formed payload and a present sender
whose decoded server identifier differs from `0x` + this node's identity
triggers no registration call, no publish, and returns `nil`. -/
theorem accept_other_server_ignored (s : NotificationServer) (t : Transport)
    (reg : Registry) (msg : ReceivedMessage) (sid : String) (pk : PubKey)
    (hdec : unmarshalAcceptPayload msg.Payload = Except.ok sid)
    (hsid : sid ≠ "0x" ++ s.nodeID) (hsrc : msg.Src = some pk) :
    processServerAcceptedRequest s t reg msg =
      { result := none, registrations := [], sends := [] } := by
  simp only [processServerAcceptedRequest, hdec, hsrc]
  rw [if_pos hsid]

/-- Witness for `accept_other_server_ignored` at concrete inputs. -/
theorem accept_other_server_ignored_witness :
    unmarshalAcceptPayload acceptOtherServerMsg.Payload = Except.ok "0xffff" ∧
    "0xffff" ≠ "0x" ++ testServer.nodeID ∧
    acceptOtherServerMsg.Src = some testClientKey ∧
    processServerAcceptedRequest testServer okTransport okRegistry acceptOtherServerMsg =
      { result := none, registrations := [], sends := [] } :=
  ⟨rfl, by decide, rfl,
    accept_other_server_ignored testServer okTransport okRegistry acceptOtherServerMsg
      "0xffff" testClientKey rfl (by decide) rfl⟩

/-! ### C5 — validation order: decode, then sender, then identity -/

/-- C5: the accept handler validates in the stated order.  Whenever payload
decoding fails, the decode error is returned (and it is never the
missing-sender error, so a message that is both malformed and senderless gets
the decode error) with no registration and no publish; whenever decoding
succeeds but the sender is absent, the missing-sender error is returned,
again with no registration and no publish. -/
theorem accept_validation_order (s : NotificationServer) (t : Transport)
    (reg : Registry) (msg : ReceivedMessage) :
    (∀ e : String, unmarshalAcceptPayload msg.Payload = Except.error e →
      processServerAcceptedRequest s t reg msg =
        { result := some e, registrations := [], sends := [] } ∧
      e ≠ missingSenderMsg) ∧
    (∀ sid : String, unmarshalAcceptPayload msg.Payload = Except.ok sid →
      msg.Src = none →
      processServerAcceptedRequest s t reg msg =
        { result := some missingSenderMsg, registrations := [], sends := [] }) := by
  constructor
  · intro e hdec
    constructor
    · simp only [processServerAcceptedRequest, hdec]
    · rcases unmarshalAcceptPayload_error_cases _ _ hdec with h | h | h <;>
        rw [h] <;> decide
  · intro sid hdec hsrc
    simp only [processServerAcceptedRequest, hdec, hsrc]

/-- Witness for `accept_validation_order`: a message that is both malformed
and senderless yields the decode error, not the missing-sender error. -/
theorem accept_validation_order_witness :
    unmarshalAcceptPayload acceptMalformedNoSenderMsg.Payload =
      Except.error jsonSyntaxErrorMsg ∧
    acceptMalformedNoSenderMsg.Src = none ∧
    (processServerAcceptedRequest testServer okTransport okRegistry
        acceptMalformedNoSenderMsg =
        { result := some jsonSyntaxErrorMsg, registrations := [], sends := [] } ∧
      jsonSyntaxErrorMsg ≠ missingSenderMsg) :=
  ⟨rfl, rfl,
    (accept_validation_order testServer okTransport okRegistry
      acceptMalformedNoSenderMsg).1 jsonSyntaxErrorMsg rfl⟩

/-! ### C6 — registry errors propagate as-is, send errors are wrapped -/

/-- C6: on the accept path that reaches registration, a registry failure is
returned exactly as the registry produced it and nothing is passed to `Send`;
a `Send` failure after successful registration and wrapping is returned
wrapped with the `failed to send server proposal message:` context. -/
theorem accept_error_propagation (s : NotificationServer) (t : Transport)
    (reg : Registry) (msg : ReceivedMessage) (pk : PubKey) (k : List Byte) (e : String)
    (hdec : unmarshalAcceptPayload msg.Payload = Except.ok ("0x" ++ s.nodeID))
    (hsrc : msg.Src = some pk) :
    (reg.register { ClientKey := hexEncodeToString pk } = Except.error e →
      processServerAcceptedRequest s t reg msg =
        { result := some e
          registrations := [{ ClientKey := hexEncodeToString pk }]
          sends := [] }) ∧
    (reg.register { ClientKey := hexEncodeToString pk } = Except.ok k →
      t.wrapErr (ackMsgParams s pk k) = none →
      t.sendErr (ackMsgParams s pk k) = some e →
      processServerAcceptedRequest s t reg msg =
        { result := some ("failed to send server proposal message: " ++ e)
          registrations := [{ ClientKey := hexEncodeToString pk }]
          sends := [ackMsgParams s pk k] }) := by
  constructor
  · intro hreg
    simp only [processServerAcceptedRequest, hdec, hsrc]
    rw [if_neg (fun hn => hn rfl)]
    simp only [hreg]
  · intro hreg hw hsend
    simp only [processServerAcceptedRequest, hdec, hsrc]
    rw [if_neg (fun hn => hn rfl)]
    simp only [hreg, hw, hsend]

/-- Witness for `accept_error_propagation`: the registry failure comes back
verbatim with nothing sent; the send failure comes back wrapped. -/
theorem accept_error_propagation_witness :
    failRegistry.register { ClientKey := hexEncodeToString testClientKey } =
      Except.error "registry full" ∧
    processServerAcceptedRequest testServer okTransport failRegistry acceptMsg =
      { result := some "registry full"
        registrations := [{ ClientKey := hexEncodeToString testClientKey }]
        sends := [] } ∧
    sendFailTransport.sendErr (ackMsgParams testServer testClientKey [7, 8]) =
      some "network down" ∧
    processServerAcceptedRequest testServer sendFailTransport okRegistry acceptMsg =
      { result := some ("failed to send server proposal message: " ++ "network down")
        registrations := [{ ClientKey := hexEncodeToString testClientKey }]
        sends := [ackMsgParams testServer testClientKey [7, 8]] } :=
  ⟨rfl,
    (accept_error_propagation testServer okTransport failRegistry acceptMsg testClientKey
      [7, 8] "registry full" rfl rfl).1 rfl,
    rfl,
    (accept_error_propagation testServer sendFailTransport okRegistry acceptMsg
      testClientKey [7, 8] "network down" rfl rfl).2 rfl rfl rfl⟩

/-! ### C9 — lenient decoding of valid JSON -/

/-- C9 counterexample: a payload that is valid JSON carrying `server` with a
numeric value does produce a malformed-payload (decode) error — Go's
decoder reports a type error for it — contradicting the claim that only
JSON syntax errors take that path. -/
theorem accept_num_server_field_cex :
    acceptNumServerMsg.Payload = some (JsonValue.obj [("server", JsonValue.num 123)]) ∧
    (processServerAcceptedRequest testServer okTransport okRegistry
        acceptNumServerMsg).result = some jsonTypeErrorFieldMsg ∧
    (processServerAcceptedRequest testServer okTransport okRegistry
        acceptNumServerMsg).result ≠ none :=
  ⟨rfl, rfl, by decide⟩

/-- C9 amended: a syntactically valid JSON object lacking the `server` field
decodes without error to the empty identifier, fails the identity comparison
(`0x` + nodeID is never empty) and is silently ignored with success; but a
`server` field carrying a non-string (and non-null) JSON value, such as a
number, yields a decode type error — type errors take the malformed-payload
path alongside syntax errors. -/
theorem accept_lenient_decode (s : NotificationServer) (t : Transport)
    (reg : Registry) (msg : ReceivedMessage) (pk : PubKey) (n : Int) :
    (msg.Payload = some (JsonValue.obj []) → msg.Src = some pk →
      processServerAcceptedRequest s t reg msg =
        { result := none, registrations := [], sends := [] }) ∧
    (msg.Payload = some (JsonValue.obj [("server", JsonValue.num n)]) →
      processServerAcceptedRequest s t reg msg =
        { result := some jsonTypeErrorFieldMsg, registrations := [], sends := [] }) := by
  constructor
  · intro hp hsrc
    have hdec : unmarshalAcceptPayload msg.Payload = Except.ok "" := by rw [hp]; rfl
    simp only [processServerAcceptedRequest, hdec, hsrc]
    rw [if_pos (Ne.symm (zeroX_ne_empty s.nodeID))]
  · intro hp
    have hdec : unmarshalAcceptPayload msg.Payload =
        Except.error jsonTypeErrorFieldMsg := by rw [hp]; rfl
    simp only [processServerAcceptedRequest, hdec]

/-- Witness for `accept_lenient_decode` at concrete inputs. -/
theorem accept_lenient_decode_witness :
    acceptEmptyObjMsg.Payload = some (JsonValue.obj []) ∧
    acceptEmptyObjMsg.Src = some testClientKey ∧
    processServerAcceptedRequest testServer okTransport okRegistry acceptEmptyObjMsg =
      { result := none, registrations := [], sends := [] } ∧
    acceptNumServerMsg.Payload = some (JsonValue.obj [("server", JsonValue.num 123)]) ∧
    processServerAcceptedRequest testServer okTransport okRegistry acceptNumServerMsg =
      { result := some jsonTypeErrorFieldMsg, registrations := [], sends := [] } :=
  ⟨rfl, rfl,
    (accept_lenient_decode testServer okTransport okRegistry acceptEmptyObjMsg
      testClientKey 123).1 rfl rfl,
    rfl,
    (accept_lenient_decode testServer okTransport okRegistry acceptNumServerMsg
      testClientKey 123).2 rfl⟩

end Notifications
